import Mathlib

/-!
Shallow embedding of the tarco trade-compliance classification core:
the confidence calibrator (`src/rag/calibrator.py`), the classification
pipeline (`src/rag/pipeline.py`), the chat clarification endpoints
(`src/api/routers/chat.py`), the vector-store document indexing
(`src/rag/retrieval.py`), the applicable-rate resolution of the
deterministic builder (`src/services/deterministic_builder.py`) and the
schema validation gate (`src/api/schemas/validation.py`,
`src/api/schemas/response.py`).

Numeric scores, thresholds and duty rates are embedded as rationals: the
verified operations only carry, compare and subtract these values, so the
embedding is exact on every value the theorems mention.
-/

namespace Tarco

/-- `src/core/config.py`: the two classification thresholds of `Settings`,
with their declared defaults. -/
structure Settings where
  confidence_threshold : ℚ := 0.62
  margin_threshold : ℚ := 0.07
deriving DecidableEq, Repr

/-- The settings object built with no overrides (`settings = Settings()`). -/
def defaultSettings : Settings := {}

/-- `src/api/schemas/response.py`: `DutyType`. -/
inductive DutyType where
  | ad_valorem
  | specific
  | compound
deriving DecidableEq, Repr

/-- `src/api/schemas/response.py`: `DutyUnit`. -/
inductive DutyUnit where
  | percent
  | eurPer100kg
  | eurPerUnit
  | mixed
deriving DecidableEq, Repr

/-- `src/api/schemas/response.py`: `ClassificationMethod`. -/
inductive ClassificationMethod where
  | retrieval_rerank_calibrate
  | provided_by_user
deriving DecidableEq, Repr

/-- `src/rag/calibrator.py`: `ConfidenceCalibrator.should_abstain`.
Reads the two thresholds from settings; abstains when either check fires. -/
def shouldAbstain (s : Settings) (confidence margin : ℚ) : Bool :=
  if confidence < s.confidence_threshold then true
  else if margin < s.margin_threshold then true
  else false

/-- The metadata payload carried by an indexed point and read by the
pipeline (`metadata.get('goods_code')`, `metadata.get('description', '')`).
`goods_code` is `none` when the key is absent. -/
structure PointMetadata where
  goods_code : Option String := none
  description : String := ""
deriving DecidableEq, Repr

/-- Python truthiness of `metadata.get('goods_code')`: both a missing key
and an empty string fail an `if hs_code:` test. Returns the code exactly
when it is truthy. -/
def truthyCode : Option String → Option String
  | none => none
  | some s => if s = "" then none else some s

/-- A retrieved candidate as `VectorRetriever.search` returns it:
`{'score', 'metadata', 'id'}` (`src/rag/retrieval.py`). -/
structure RetrievedCandidate where
  score : ℚ
  metadata : PointMetadata
  pointId : Nat
deriving DecidableEq, Repr

/-- A reranked candidate: `rerank_with_metadata` attaches `rerank_score`
to the retrieved record (`src/rag/reranker.py`). -/
structure RankedCandidate where
  metadata : PointMetadata := {}
  rerank_score : ℚ := 0
deriving DecidableEq, Repr

/-- The classification result dictionary of
`HSClassificationPipeline` (`src/rag/pipeline.py`). Keys that only some
branches set (`abstention_reason`, `clarification_used`,
`selected_option`, `top_candidates`) are optional fields with the
absent-key value as default. -/
structure ClassificationResult where
  hs_code : Option String
  confidence : ℚ
  margin : ℚ
  method : ClassificationMethod
  abstained : Bool
  abstention_reason : Option String := none
  top_candidates : List RankedCandidate := []
  clarification_used : Bool := false
  selected_option : Option String := none
  metadata : PointMetadata := {}
deriving DecidableEq, Repr

/-- `src/rag/pipeline.py` lines 107-118:
`HSClassificationPipeline._create_abstain_result`. -/
def createAbstainResult (reason : String) (confidence margin : ℚ) :
    ClassificationResult :=
  { hs_code := none
    confidence := confidence
    margin := margin
    method := ClassificationMethod.retrieval_rerank_calibrate
    abstained := true
    abstention_reason := some reason
    top_candidates := []
    metadata := {} }

/-- `src/rag/pipeline.py` lines 33-105: `HSClassificationPipeline.classify`.
The external model stages are passed in as data: `candidates` is what
`retriever.search` returned, `reranked` what
`reranker.rerank_with_metadata` returned, `features` what
`get_confidence_features` returned, and `confidence` what
`calibrator.predict_confidence` returned; the orchestration branches are
translated unchanged. -/
def classify (candidates : List RetrievedCandidate)
    (reranked : List RankedCandidate) (features : List ℚ) (confidence : ℚ)
    (s : Settings) : ClassificationResult :=
  if candidates.isEmpty then createAbstainResult "no_candidates_retrieved" 0 0
  else if reranked.isEmpty then
    createAbstainResult "no_candidates_after_reranking" 0 0
  else if features.length < 5 then
    createAbstainResult "insufficient_confidence_features" 0 0
  else
    match reranked with
    | [] => createAbstainResult "no_candidates_after_reranking" 0 0
    | top :: rest =>
      let margin : ℚ :=
        match rest with
        | b :: _ => top.rerank_score - b.rerank_score
        | [] => 0
      if shouldAbstain s confidence margin then
        createAbstainResult "low_confidence" confidence margin
      else
        match truthyCode top.metadata.goods_code with
        | none => createAbstainResult "no_hs_code_in_result" 0 0
        | some code =>
          { hs_code := some code
            confidence := confidence
            margin := margin
            method := ClassificationMethod.retrieval_rerank_calibrate
            abstained := false
            top_candidates := (top :: rest).take 3
            metadata := top.metadata }

/-- One option of a clarifying question (`src/rag/pipeline.py` lines
143-148). -/
structure ClarifyingOption where
  id : String
  hs_code : String
  description : String
  score : ℚ
deriving DecidableEq, Repr

/-- A clarifying question (`src/rag/pipeline.py` lines 154-158). -/
structure ClarifyingQuestion where
  id : String
  question : String
  options : List ClarifyingOption
deriving DecidableEq, Repr

/-- `src/rag/pipeline.py` line 155: the clarifying-question identifier
`f"cq_{hash(query) % 10000}"`. The Python string hash is an arbitrary
parameter: the theorems hold for every choice of it. -/
def questionId (pyHash : String → Nat) (query : String) : String :=
  "cq_" ++ toString (pyHash query % 10000)

/-- `src/api/routers/chat.py` line 72: the stored session identifier
`f"session_{hash(request.message) % 10000}"`. -/
def sessionKey (pyHash : String → Nat) (message : String) : String :=
  "session_" ++ toString (pyHash message % 10000)

/-- `src/rag/pipeline.py` lines 136-148: the `candidates_info` list built
by `get_clarifying_question` — enumerate the top-3 slice, keep the
candidates with a truthy `goods_code`, and give each the single-letter id
`chr(ord('a') + i)` taken from its position `i` in the slice. -/
def candidatesInfo (top_candidates : List RankedCandidate) :
    List ClarifyingOption :=
  (top_candidates.take 3).enum.filterMap fun p =>
    match truthyCode p.2.metadata.goods_code with
    | some code =>
      some { id := String.singleton (Char.ofNat (97 + p.1))
             hs_code := code
             description := p.2.metadata.description
             score := p.2.rerank_score }
    | none => none

/-- `src/rag/pipeline.py` lines 120-164:
`HSClassificationPipeline.get_clarifying_question`. -/
def getClarifyingQuestion (pyHash : String → Nat) (query : String)
    (top_candidates : List RankedCandidate) : Option ClarifyingQuestion :=
  if top_candidates.length < 2 then none
  else
    let infos := candidatesInfo top_candidates
    if infos.length < 2 then none
    else
      some { id := questionId pyHash query
             question := "Which of the following best describes your product?"
             options := infos }

/-- `src/rag/pipeline.py` lines 166-209:
`HSClassificationPipeline.classify_with_clarification`.
Python first lowercases the whole selection with the full Unicode
`str.lower()`, and `ord` then raises `TypeError` unless the lowered
string is exactly one character; the surrounding handler turns that into
the `clarification_error` abstain. A surviving single character is mapped
to the index `ord(c) - ord('a')`, which the code then bound-checks. The
embedding lowercases per character with the ASCII-only `Char.toLower`,
which agrees with `str.lower()` exactly — same characters, same length —
whenever every character of the selection is ASCII; on non-ASCII
selections it diverges from the code (Unicode lowercasing can change the
length, as for `"İ"`, or map outside ASCII, as `"Ä"` to `"ä"`), so the
selection-taxonomy theorem about this function restricts the selection to
ASCII characters. -/
def classifyWithClarification (selected_option : String)
    (top_candidates : List RankedCandidate) : ClassificationResult :=
  match selected_option.data with
  | [c] =>
    let idx : Int := (c.toLower.toNat : Int) - 97
    if idx < 0 ∨ (top_candidates.length : Int) ≤ idx then
      createAbstainResult "invalid_option_selected" 0 0
    else
      match top_candidates.get? idx.toNat with
      | none => createAbstainResult "invalid_option_selected" 0 0
      | some cand =>
        match truthyCode cand.metadata.goods_code with
        | none => createAbstainResult "no_hs_code_in_selected" 0 0
        | some code =>
          { hs_code := some code
            confidence := 1
            margin := 0
            method := ClassificationMethod.retrieval_rerank_calibrate
            abstained := false
            clarification_used := true
            selected_option := some selected_option
            metadata := cand.metadata }
  | _ => createAbstainResult "clarification_error" 0 0

end Tarco

namespace Tarco

/-- C1: for every pair of settings and every confidence and margin value,
`should_abstain` returns true exactly when `confidence <
confidence_threshold` or `margin < margin_threshold`; the default
`Settings` carry the thresholds 0.62 and 0.07
(`src/rag/calibrator.py` lines 163-187, `src/core/config.py` lines 38-39). -/
theorem shouldAbstain_iff_below_thresholds :
    (∀ (s : Settings) (c m : ℚ),
      shouldAbstain s c m = true ↔
        (c < s.confidence_threshold ∨ m < s.margin_threshold))
    ∧ defaultSettings.confidence_threshold = 0.62
    ∧ defaultSettings.margin_threshold = 0.07 := by
  refine ⟨fun s c m => ?_, rfl, rfl⟩
  unfold shouldAbstain
  split_ifs with h1 h2
  · simp [h1]
  · simp [h2]
  · simp [h1, h2]

end Tarco

namespace Tarco

/-- C2: every result of `classify` and of `classify_with_clarification`
has a non-`None` `hs_code` exactly when `abstained` is false
(`src/rag/pipeline.py` lines 79-118 and 178-209). -/
theorem classification_code_iff_not_abstained :
    ∀ (candidates : List RetrievedCandidate) (reranked : List RankedCandidate)
      (features : List ℚ) (confidence : ℚ) (s : Settings)
      (sel : String) (tcs : List RankedCandidate),
      ((classify candidates reranked features confidence s).hs_code ≠ none ↔
        (classify candidates reranked features confidence s).abstained = false)
      ∧ ((classifyWithClarification sel tcs).hs_code ≠ none ↔
        (classifyWithClarification sel tcs).abstained = false) := by
  intro candidates reranked features confidence s sel tcs
  constructor
  · unfold classify
    split_ifs with h1 h2 h3
    · simp [createAbstainResult]
    · simp [createAbstainResult]
    · simp [createAbstainResult]
    · split
      · simp [createAbstainResult]
      · dsimp only
        split_ifs with h4
        · simp [createAbstainResult]
        · split <;> simp [createAbstainResult]
  · unfold classifyWithClarification
    split
    · dsimp only
      split_ifs with h1
      · simp [createAbstainResult]
      · split
        · simp [createAbstainResult]
        · split <;> simp [createAbstainResult]
    · simp [createAbstainResult]

end Tarco

namespace Tarco

/-- Sample reranked candidate with a resolvable code (used by witnesses). -/
def hoodieCand : RankedCandidate :=
  { metadata := { goods_code := some "61102000", description := "cotton hoodie" }
    rerank_score := 2 }

/-- Second sample reranked candidate with a resolvable code. -/
def pulloverCand : RankedCandidate :=
  { metadata := { goods_code := some "61103000", description := "man-made fibre pullover" }
    rerank_score := 1 }

/-- Sample reranked candidate without a resolvable code. -/
def codelessCand : RankedCandidate :=
  { metadata := { goods_code := none, description := "unmapped item" }
    rerank_score := 3 }

/-- Sample retrieved candidate (used by witnesses). -/
def sampleRetrieved : List RetrievedCandidate :=
  [{ score := 1
     metadata := { goods_code := some "61102000", description := "cotton hoodie" }
     pointId := 0 }]

/-- Sample five-entry confidence feature vector (used by witnesses). -/
def sampleFeatures : List ℚ := [2, 1, 1, 3/2, 1/2]

/-- Every `classify` result is either an abstain record built by
`_create_abstain_result` or the non-abstained success record. -/
lemma classifyShape (candidates : List RetrievedCandidate)
    (reranked : List RankedCandidate) (features : List ℚ) (confidence : ℚ)
    (s : Settings) :
    (∃ reason c m,
      classify candidates reranked features confidence s = createAbstainResult reason c m) ∨
    (classify candidates reranked features confidence s).abstained = false := by
  unfold classify
  split_ifs with h1 h2 h3
  · exact Or.inl ⟨_, _, _, rfl⟩
  · exact Or.inl ⟨_, _, _, rfl⟩
  · exact Or.inl ⟨_, _, _, rfl⟩
  · split
    · exact Or.inl ⟨_, _, _, rfl⟩
    · dsimp only
      split_ifs with h4
      · exact Or.inl ⟨_, _, _, rfl⟩
      · split
        · exact Or.inl ⟨_, _, _, rfl⟩
        · exact Or.inr rfl

/-- C3: whenever `classify` abstains, the abstain result carries an empty
`top_candidates` list (`_create_abstain_result` discards the reranked
candidates), so the clarifying question that `resolve_chat_message`
generates from it is always `None` — even when the pipeline's reranked
candidates did have two or more resolvable codes
(`src/rag/pipeline.py` lines 107-118, `src/api/routers/chat.py` lines
62-84). -/
theorem abstain_result_never_carries_clarifying_question
    (candidates : List RetrievedCandidate) (reranked : List RankedCandidate)
    (features : List ℚ) (confidence : ℚ) (s : Settings)
    (h : (classify candidates reranked features confidence s).abstained = true) :
    (classify candidates reranked features confidence s).top_candidates = [] ∧
    ∀ (pyHash : String → Nat) (query : String),
      getClarifyingQuestion pyHash query
        ((classify candidates reranked features confidence s).top_candidates) = none := by
  rcases classifyShape candidates reranked features confidence s with ⟨r, c, m, he⟩ | hf
  · rw [he]
    exact ⟨rfl, fun _ _ => rfl⟩
  · rw [hf] at h
    exact Bool.noConfusion h

/-- C3 witness: both reranked candidates carry resolvable codes, yet the
low-confidence abstain result yields no clarifying question. -/
theorem abstain_result_never_carries_clarifying_question_witness :
    (classify sampleRetrieved [hoodieCand, pulloverCand] sampleFeatures (1/2)
        defaultSettings).top_candidates = [] ∧
    ∀ (pyHash : String → Nat) (query : String),
      getClarifyingQuestion pyHash query
        ((classify sampleRetrieved [hoodieCand, pulloverCand] sampleFeatures (1/2)
          defaultSettings).top_candidates) = none :=
  abstain_result_never_carries_clarifying_question _ _ _ _ _ (by
    norm_num [classify, sampleRetrieved, sampleFeatures, hoodieCand, pulloverCand,
      shouldAbstain, defaultSettings, createAbstainResult])

/-- C4 counterexample, two parts. The empty selection string cannot be
resolved to an option index, yet the abstain reason is
`clarification_error` (the `ord(selected_option.lower())` `TypeError`
path), not `invalid_option_selected` as the claim states. And the
in-range selection `"a"` of a candidate without a resolvable code is not
resolved to a code either, yet it abstains with the third reason
`no_hs_code_in_selected` — it is neither a success with confidence 1.0
nor an `invalid_option_selected` abstain. -/
theorem selection_reason_counterexample :
    ((classifyWithClarification "" [hoodieCand, pulloverCand]).abstained = true ∧
     (classifyWithClarification "" [hoodieCand, pulloverCand]).abstention_reason =
       some "clarification_error" ∧
     (classifyWithClarification "" [hoodieCand, pulloverCand]).abstention_reason ≠
       some "invalid_option_selected")
    ∧ ((classifyWithClarification "a" [codelessCand, pulloverCand]).abstained = true ∧
       (classifyWithClarification "a" [codelessCand, pulloverCand]).abstention_reason =
         some "no_hs_code_in_selected" ∧
       (classifyWithClarification "a" [codelessCand, pulloverCand]).abstention_reason ≠
         some "invalid_option_selected") := by
  refine ⟨⟨rfl, rfl, ?_⟩, rfl, rfl, ?_⟩ <;> decide

/-- C4 (amended), stated for selections whose characters are all ASCII —
the domain on which Python's `str.lower()` is the length-preserving ASCII
case mapping and the embedding of `ord(selected_option.lower())` is
exact (non-ASCII selections follow Python's full Unicode lowercasing
before `ord` and are outside this statement): only a single-character
selection is resolved to the index `ord(lower(c)) - ord('a')`; an
out-of-range index abstains with reason `invalid_option_selected`; a
selection that is not exactly one character abstains with reason
`clarification_error`; an in-range selection of a candidate without a
resolvable code abstains with reason `no_hs_code_in_selected`; an
in-range selection of a candidate with a resolvable code yields a
non-abstained result with confidence 1.0 and `clarification_used = true`
(`src/rag/pipeline.py` lines 166-209). -/
theorem classify_with_clarification_selection_spec
    (sel : String) (tcs : List RankedCandidate)
    (_hascii : ∀ c ∈ sel.data, c.toNat < 128) :
    (sel.data.length ≠ 1 →
      classifyWithClarification sel tcs = createAbstainResult "clarification_error" 0 0)
    ∧ (∀ c : Char, sel.data = [c] →
        (((c.toLower.toNat : Int) - 97 < 0 ∨
            (tcs.length : Int) ≤ (c.toLower.toNat : Int) - 97) →
          classifyWithClarification sel tcs =
            createAbstainResult "invalid_option_selected" 0 0)
        ∧ (∀ cand : RankedCandidate,
            ¬((c.toLower.toNat : Int) - 97 < 0 ∨
              (tcs.length : Int) ≤ (c.toLower.toNat : Int) - 97) →
            tcs.get? ((c.toLower.toNat : Int) - 97).toNat = some cand →
            (truthyCode cand.metadata.goods_code = none →
              classifyWithClarification sel tcs =
                createAbstainResult "no_hs_code_in_selected" 0 0)
            ∧ (∀ code : String, truthyCode cand.metadata.goods_code = some code →
                (classifyWithClarification sel tcs).abstained = false ∧
                (classifyWithClarification sel tcs).hs_code = some code ∧
                (classifyWithClarification sel tcs).confidence = 1 ∧
                (classifyWithClarification sel tcs).clarification_used = true))) := by
  rcases hd : sel.data with _ | ⟨c, _ | ⟨c2, rest⟩⟩
  · exact ⟨fun _ => by simp only [classifyWithClarification, hd],
      fun c hc => List.noConfusion hc⟩
  · refine ⟨fun hne => absurd rfl hne, fun c' hc => ?_⟩
    obtain ⟨rfl, -⟩ : c = c' ∧ [] = ([] : List Char) := by
      exact ⟨List.head_eq_of_cons_eq hc, rfl⟩
    constructor
    · intro hrange
      simp only [classifyWithClarification, hd]
      rw [if_pos hrange]
    · intro cand hnr hget
      constructor
      · intro ht
        simp only [classifyWithClarification, hd, if_neg hnr, hget, ht]
      · intro code hcode
        simp only [classifyWithClarification, hd, if_neg hnr, hget, hcode]
        exact ⟨trivial, trivial, trivial, trivial⟩
  · refine ⟨fun _ => by simp only [classifyWithClarification, hd], fun c' hc => ?_⟩
    exact absurd hc (by simp)

/-- C4 witness: the four selection shapes at concrete inputs — a
two-character selection, an out-of-range letter, an in-range letter whose
candidate lacks a code, and an in-range letter whose candidate has one. -/
theorem classify_with_clarification_selection_spec_witness :
    classifyWithClarification "ab" [hoodieCand, pulloverCand] =
      createAbstainResult "clarification_error" 0 0
    ∧ classifyWithClarification "z" [hoodieCand, pulloverCand] =
      createAbstainResult "invalid_option_selected" 0 0
    ∧ classifyWithClarification "a" [codelessCand, pulloverCand] =
      createAbstainResult "no_hs_code_in_selected" 0 0
    ∧ (classifyWithClarification "b" [codelessCand, pulloverCand]).abstained = false
    ∧ (classifyWithClarification "b" [codelessCand, pulloverCand]).hs_code =
      some "61103000" := by
  refine ⟨?_, ?_, ?_, ?_, ?_⟩
  · exact (classify_with_clarification_selection_spec "ab"
      [hoodieCand, pulloverCand] (by decide)).1 (by decide)
  · exact ((classify_with_clarification_selection_spec "z"
      [hoodieCand, pulloverCand] (by decide)).2 'z' rfl).1 (by decide)
  · exact (((classify_with_clarification_selection_spec "a"
      [codelessCand, pulloverCand] (by decide)).2 'a' rfl).2
      codelessCand (by decide) rfl).1 rfl
  · exact ((((classify_with_clarification_selection_spec "b"
      [codelessCand, pulloverCand] (by decide)).2 'b' rfl).2
      pulloverCand (by decide) rfl).2 "61103000" rfl).1
  · exact ((((classify_with_clarification_selection_spec "b"
      [codelessCand, pulloverCand] (by decide)).2 'b' rfl).2
      pulloverCand (by decide) rfl).2 "61103000" rfl).2.1

end Tarco

namespace Tarco

/-- C5: for every possible Python string-hash function there are two
distinct query texts whose generated clarifying-question id and session
key coincide: `cq_{hash(q) % 10000}` ranges over at most 10000 values, so
by pigeonhole the generation cannot be injective over query texts
(`src/rag/pipeline.py` line 155, `src/api/routers/chat.py` line 72). -/
theorem identifier_generation_not_injective (pyHash : String → Nat) :
    ∃ q1 q2 : String, q1 ≠ q2 ∧
      questionId pyHash q1 = questionId pyHash q2 ∧
      sessionKey pyHash q1 = sessionKey pyHash q2 := by
  have hinj : Function.Injective (fun i : ℕ => String.mk (List.replicate i 'a')) := by
    intro a b hab
    have hlen : (String.mk (List.replicate a 'a')).length =
        (String.mk (List.replicate b 'a')).length :=
      congrArg String.length hab
    simpa [String.length] using hlen
  have hcard : (Finset.range 10000).card <
      ((Finset.range 10001).image fun i => String.mk (List.replicate i 'a')).card := by
    rw [Finset.card_image_of_injective _ hinj, Finset.card_range, Finset.card_range]
    norm_num
  have hmaps : ∀ q ∈ (Finset.range 10001).image
      (fun i => String.mk (List.replicate i 'a')),
      pyHash q % 10000 ∈ Finset.range 10000 := by
    intro q _
    exact Finset.mem_range.mpr (Nat.mod_lt _ (by norm_num))
  obtain ⟨q1, -, q2, -, hne, heq⟩ :=
    Finset.exists_ne_map_eq_of_card_lt_of_maps_to hcard hmaps
  refine ⟨q1, q2, hne, ?_, ?_⟩
  · unfold questionId
    rw [heq]
  · unfold sessionKey
    rw [heq]

/-- A document handed to `add_documents`: `{'content', 'metadata'}`
(`src/rag/retrieval.py` lines 64-77). -/
structure Document where
  content : String
  metadata : PointMetadata
deriving DecidableEq, Repr

/-- `src/rag/retrieval.py` lines 82-90: `add_documents` builds one point
per document and assigns it the id `i` taken from `enumerate`, so every
call hands out the ids `0, 1, …, n-1` again. -/
def assignedPointIds (documents : List Document) : List Nat :=
  List.range documents.length

/-- C7: any two non-empty `add_documents` calls assign a common point id
(id 0 at least), so the second call's `upsert` silently overwrites a point
stored by the first call (`src/rag/retrieval.py` lines 64-102). -/
theorem point_ids_collide_across_calls (d1 d2 : List Document)
    (h1 : d1 ≠ []) (h2 : d2 ≠ []) :
    ∃ pid, pid ∈ assignedPointIds d1 ∧ pid ∈ assignedPointIds d2 := by
  refine ⟨0, ?_, ?_⟩
  · exact List.mem_range.mpr (List.length_pos.mpr h1)
  · exact List.mem_range.mpr (List.length_pos.mpr h2)

/-- C7 witness: two singleton insert calls for two different documents
both assign point id 0. -/
theorem point_ids_collide_across_calls_witness :
    ∃ pid,
      pid ∈ assignedPointIds
        [{ content := "cotton hoodie"
           metadata := { goods_code := some "61102000", description := "cotton hoodie" } }] ∧
      pid ∈ assignedPointIds
        [{ content := "wool sweater"
           metadata := { goods_code := some "61101100", description := "wool sweater" } }] :=
  point_ids_collide_across_calls _ _ (by simp) (by simp)

/-- `src/api/routers/chat.py` lines 47, 212-217: the parameter record
returned by `_extract_query_parameters`. -/
structure ExtractedParams where
  origin : String := ""
  destination : String := ""
  product_description : String := ""
  quantity : Option Nat := none
deriving DecidableEq, Repr

/-- A stored clarification session. `resolve_chat_message` stores exactly
the keys `extracted_params`, `classification_result` and `message`
(`src/api/routers/chat.py` lines 73-77); `clarifying_question` models the
`sess.get('clarifying_question', {})` lookup on the stored dictionary, so
it is the value of a key the record may or may not carry. -/
structure SessionRecord where
  extracted_params : ExtractedParams
  classification_result : ClassificationResult
  message : String
  clarifying_question : Option ClarifyingQuestion
deriving DecidableEq, Repr

/-- The session record as `resolve_chat_message` stores it: no
`clarifying_question` key (`src/api/routers/chat.py` lines 73-77). -/
def mkResolveSession (extracted : ExtractedParams)
    (result : ClassificationResult) (message : String) : SessionRecord :=
  { extracted_params := extracted
    classification_result := result
    message := message
    clarifying_question := none }

/-- `src/api/routers/chat.py` lines 133-140: the lookup loop of
`answer_clarification`: the first stored session whose
`sess.get('clarifying_question', {}).get('id')` equals the requested
`question_id`. `ChatAnswerRequest.question_id` is a required string
(`src/api/schemas/request.py` line 34), so a record without a stored
question (whose lookup yields `None`) never compares equal. -/
def findSession (sessions : List (String × SessionRecord))
    (question_id : String) : Option (String × SessionRecord) :=
  sessions.find? fun p =>
    match p.2.clarifying_question with
    | some q => q.id == question_id
    | none => false

/-- C8: every session that `resolve_chat_message` stores lacks the
`clarifying_question` key, so `answer_clarification`'s lookup never finds
any session for any question id: every answer request — the first one
included — takes the 404 "Clarification session not found" path, and no
answer request ever succeeds (`src/api/routers/chat.py` lines 73-77 and
133-146). -/
theorem resolve_sessions_never_found (sessions : List (String × SessionRecord))
    (h : ∀ p ∈ sessions, ∃ extracted result message,
      p.2 = mkResolveSession extracted result message) :
    ∀ question_id, findSession sessions question_id = none := by
  intro qid
  apply List.find?_eq_none.mpr
  intro p hp
  obtain ⟨e, r, m, hpe⟩ := h p hp
  simp [hpe, mkResolveSession]

/-- C8 witness: the session stored by an abstaining resolve call is not
found even for its own question id. -/
theorem resolve_sessions_never_found_witness :
    findSession
      [("session_1234",
        mkResolveSession { product_description := "cotton hoodie" }
          (createAbstainResult "low_confidence" 0 0)
          "import cotton hoodie from pakistan to germany")]
      "cq_1234" = none :=
  resolve_sessions_never_found _
    (by
      intro p hp
      rw [List.mem_singleton] at hp
      subst hp
      exact ⟨_, _, _, rfl⟩)
    "cq_1234"

end Tarco

namespace Tarco

/-- `src/api/schemas/response.py`: `LegalBase`. -/
structure LegalBase where
  id : String
  title : String
deriving DecidableEq, Repr

/-- `src/api/schemas/response.py`: `DutyComponent`. -/
structure DutyComponent where
  type : DutyType
  value : ℚ
  unit : DutyUnit
deriving DecidableEq, Repr

/-- `src/api/schemas/response.py`: `Applicability` (the validity dates are
carried as ISO date strings; no theorem computes with them). -/
structure Applicability where
  valid_from : String
  valid_to : Option String := none
deriving DecidableEq, Repr

/-- `src/api/schemas/response.py`: `ImportMeasure`. -/
structure ImportMeasure where
  goods_code : String
  origin_group : String
  measure_type : String
  duty_components : List DutyComponent
  applicability : Applicability
  legal_base : LegalBase
  footnote_code : Option String := none
  cond_cert_code : Option String := none
deriving DecidableEq, Repr

/-- `src/api/schemas/response.py`: `GoodsNomenclatureItem`. -/
structure GoodsNomenclatureItem where
  goods_code : String
  description : String
  level : Nat
  validity_start_date : String
  validity_end_date : Option String := none
  is_leaf : Bool
deriving DecidableEq, Repr

/-- `src/api/schemas/response.py`: `VatRate`. -/
structure VatRate where
  country : String
  standard_rate_percent : ℚ
  reduced_rate_1_percent : Option ℚ := none
deriving DecidableEq, Repr

/-- `src/api/schemas/response.py`: `Provenance`. -/
structure Provenance where
  legal_bases : List LegalBase
deriving DecidableEq, Repr

/-- `src/api/schemas/response.py`: `ApplicableRateResolution` (all fields
optional with `None` defaults). -/
structure ApplicableRateResolution where
  preference_possible : Option Bool := none
  required_proof : Option String := none
  chosen_measure_origin : Option String := none
  chosen_duty_rate_percent : Option ℚ := none
  fallback_if_no_proof_percent : Option ℚ := none
deriving DecidableEq, Repr

/-- `src/api/schemas/response.py`: `DeterministicValues`, restricted to
the mandatory collections the validation gate checks plus the
rate-resolution block. -/
structure DeterministicValues where
  goods_nomenclature_en : List GoodsNomenclatureItem
  import_measures : List ImportMeasure
  vat_rates : List VatRate
  provenance : Provenance
  applicable_rate_resolution : Option ApplicableRateResolution := none
deriving DecidableEq, Repr

/-- A structural violation reported by the schema gate. -/
inductive SchemaViolation where
  | emptyCollection (path : String)
deriving DecidableEq, Repr

/-- Modelled from the spec: the JSON schema file
`schema/trade_response.schema.json` that `SchemaValidator._load_schema`
reads (`src/api/schemas/validation.py` lines 26-36) is not among the
sources; spec §4.7 states the gate requires every mandated collection to
be non-empty — at least one nomenclature item, one import measure, one
VAT rate and one provenance legal basis — and that a violation blocks
egress unconditionally. The Pydantic model in the sources declares the
same `min_items=1` bounds (`src/api/schemas/response.py` lines 217-230).
Like `SchemaValidator.validate_response`, the check raises (returns
`Except.error`) on a violation and returns `True` otherwise. -/
def validateResponse (values : DeterministicValues) :
    Except SchemaViolation Bool :=
  if values.goods_nomenclature_en.isEmpty then
    Except.error (SchemaViolation.emptyCollection
      "deterministic_values/goods_nomenclature_en")
  else if values.import_measures.isEmpty then
    Except.error (SchemaViolation.emptyCollection
      "deterministic_values/import_measures")
  else if values.vat_rates.isEmpty then
    Except.error (SchemaViolation.emptyCollection
      "deterministic_values/vat_rates")
  else if values.provenance.legal_bases.isEmpty then
    Except.error (SchemaViolation.emptyCollection
      "deterministic_values/provenance/legal_bases")
  else Except.ok true

/-- C9: a payload with an empty `import_measures` collection is always
rejected by the validation gate — the check raises (no `Except.ok` value
can be returned), so the violation blocks egress unconditionally. -/
theorem empty_import_measures_rejected (values : DeterministicValues)
    (h : values.import_measures = []) :
    (∃ e, validateResponse values = Except.error e) ∧
    ∀ b, validateResponse values ≠ Except.ok b := by
  have hne : values.import_measures.isEmpty = true := by
    rw [h]
    rfl
  have hx : ∃ e, validateResponse values = Except.error e := by
    unfold validateResponse
    by_cases h1 : values.goods_nomenclature_en.isEmpty = true
    · exact ⟨_, if_pos h1⟩
    · exact ⟨SchemaViolation.emptyCollection "deterministic_values/import_measures",
        by rw [if_neg h1, if_pos hne]⟩
  obtain ⟨e, he⟩ := hx
  exact ⟨⟨e, he⟩, fun b hb => by
    rw [he] at hb
    exact Except.noConfusion hb⟩

/-- Well-formed sample payload parts used by the C9 witness. -/
def sampleNomenclature : GoodsNomenclatureItem :=
  { goods_code := "61102000"
    description := "Jerseys, pullovers and similar articles, of cotton"
    level := 8
    validity_start_date := "2023-01-01"
    is_leaf := true }

/-- Sample VAT rate used by witnesses. -/
def sampleVat : VatRate := { country := "DE", standard_rate_percent := 19 }

/-- Sample legal basis used by witnesses. -/
def sampleBase : LegalBase :=
  { id := "32022R1234", title := "Commission Implementing Regulation (EU) 2022/1234" }

/-- A payload whose only defect is `import_measures = []`. -/
def emptyMeasuresPayload : DeterministicValues :=
  { goods_nomenclature_en := [sampleNomenclature]
    import_measures := []
    vat_rates := [sampleVat]
    provenance := { legal_bases := [sampleBase] } }

/-- C9 witness: the otherwise well-formed payload with zero import
measures is rejected with an error. -/
theorem empty_import_measures_rejected_witness :
    (∃ e, validateResponse emptyMeasuresPayload = Except.error e) ∧
    ∀ b, validateResponse emptyMeasuresPayload ≠ Except.ok b :=
  empty_import_measures_rejected emptyMeasuresPayload rfl

end Tarco

namespace Tarco

/-- `src/services/deterministic_builder.py` lines 427-436:
`DeterministicBuilder._extract_duty_rate` — the first ad-valorem
percentage component, `None` when there is none. -/
def extractDutyRate (duty_components : List DutyComponent) : Option ℚ :=
  (duty_components.find? fun comp =>
    comp.type = DutyType.ad_valorem ∧ comp.unit = DutyUnit.percent).map
    fun comp => comp.value

/-- `src/services/deterministic_builder.py` lines 385-425:
`DeterministicBuilder._resolve_applicable_rate`. The Python loop keeps
the *last* measure assigned to each branch; its `elif` means a measure
whose `origin_group` equals the specific origin is never recorded as the
`ERGA OMNES` measure, which the second filter's conjunct encodes. The
unnamed fields of each `ApplicableRateResolution` keep their `None`
defaults, exactly as the Pydantic constructor calls do. -/
def resolveApplicableRate (import_measures : List ImportMeasure)
    (origin : String) : Option ApplicableRateResolution :=
  if import_measures.isEmpty then none
  else
    let preferential :=
      (import_measures.filter fun m => m.origin_group = origin).getLast?
    let ergaOmnes :=
      (import_measures.filter fun m =>
        ¬(m.origin_group = origin) ∧ m.origin_group = "ERGA OMNES").getLast?
    match preferential with
    | some p =>
      some { preference_possible := some true
             required_proof := p.cond_cert_code
             chosen_measure_origin := some origin
             chosen_duty_rate_percent := extractDutyRate p.duty_components
             fallback_if_no_proof_percent :=
               match ergaOmnes with
               | some e => extractDutyRate e.duty_components
               | none => none }
    | none =>
      match ergaOmnes with
      | some e =>
        some { preference_possible := some false
               chosen_measure_origin := some "ERGA OMNES"
               chosen_duty_rate_percent := extractDutyRate e.duty_components }
      | none => none

/-- A non-empty list's `getLast?` yields an element of the list. -/
lemma getLast?_mem_of_ne_nil {α : Type} {l : List α} (h : l ≠ []) :
    ∃ a, l.getLast? = some a ∧ a ∈ l := by
  refine ⟨l.getLast h, List.getLast?_eq_getLast_of_ne_nil h, ?_⟩
  exact List.getLast_mem h

end Tarco

namespace Tarco

/-- C6: applicable-rate resolution. An origin is a 2-3 letter country
code (spec section 6), so it never equals the universal group token
`"ERGA OMNES"`; under that proviso, when a measure exists whose origin
group equals the specific origin, resolution returns a record with
`preference_possible = true` whose chosen rate is the ad-valorem
percentage of a measure with that origin group, and the universal-group
rate is recorded as `fallback_if_no_proof_percent` whenever a
universal-group measure exists; when no measure matches the specific
origin but a universal-group measure exists, resolution chooses that rate
with `preference_possible = false`
(`src/services/deterministic_builder.py` lines 385-436). -/
theorem applicable_rate_resolution_prefers_origin
    (measures : List ImportMeasure) (origin : String)
    (horigin : origin ≠ "ERGA OMNES") :
    ((∃ m ∈ measures, m.origin_group = origin) →
      ∃ r, resolveApplicableRate measures origin = some r ∧
        r.preference_possible = some true ∧
        (∃ m ∈ measures, m.origin_group = origin ∧
          r.chosen_duty_rate_percent = extractDutyRate m.duty_components) ∧
        ((∃ m ∈ measures, m.origin_group = "ERGA OMNES") →
          ∃ m ∈ measures, m.origin_group = "ERGA OMNES" ∧
            r.fallback_if_no_proof_percent = extractDutyRate m.duty_components))
    ∧ ((∀ m ∈ measures, m.origin_group ≠ origin) →
        (∃ m ∈ measures, m.origin_group = "ERGA OMNES") →
        ∃ r, resolveApplicableRate measures origin = some r ∧
          r.preference_possible = some false ∧
          ∃ m ∈ measures, m.origin_group = "ERGA OMNES" ∧
            r.chosen_duty_rate_percent = extractDutyRate m.duty_components) := by
  constructor
  · rintro ⟨m0, hm0, hm0o⟩
    have hnonempty : ¬(measures.isEmpty = true) := by
      cases measures with
      | nil => cases hm0
      | cons a l => simp
    have hfp : (measures.filter fun m => decide (m.origin_group = origin)) ≠ [] := by
      rw [Ne, List.filter_eq_nil_iff]
      push_neg
      exact ⟨m0, hm0, by simp [hm0o]⟩
    obtain ⟨p, hp, hpmem⟩ := getLast?_mem_of_ne_nil hfp
    have hpm := List.mem_filter.mp hpmem
    have hpo : p.origin_group = origin := by simpa using hpm.2
    rcases hE : (measures.filter fun m =>
        decide (¬(m.origin_group = origin) ∧ m.origin_group = "ERGA OMNES")).getLast?
      with _ | e
    · refine ⟨{ preference_possible := some true
                required_proof := p.cond_cert_code
                chosen_measure_origin := some origin
                chosen_duty_rate_percent := extractDutyRate p.duty_components
                fallback_if_no_proof_percent := none },
        ?_, rfl, ⟨p, hpm.1, hpo, rfl⟩, ?_⟩
      · unfold resolveApplicableRate
        rw [if_neg hnonempty]
        dsimp only
        rw [hp, hE]
      · rintro ⟨me, hme, hmeo⟩
        exfalso
        have hne2 : (measures.filter fun m =>
            decide (¬(m.origin_group = origin) ∧ m.origin_group = "ERGA OMNES")) ≠ [] := by
          rw [Ne, List.filter_eq_nil_iff]
          push_neg
          refine ⟨me, hme, ?_⟩
          simp only [decide_eq_true_eq]
          exact ⟨fun hc => horigin (hc.symm.trans hmeo), hmeo⟩
        obtain ⟨e', he', -⟩ := getLast?_mem_of_ne_nil hne2
        rw [hE] at he'
        cases he'
    · refine ⟨{ preference_possible := some true
                required_proof := p.cond_cert_code
                chosen_measure_origin := some origin
                chosen_duty_rate_percent := extractDutyRate p.duty_components
                fallback_if_no_proof_percent := extractDutyRate e.duty_components },
        ?_, rfl, ⟨p, hpm.1, hpo, rfl⟩, ?_⟩
      · unfold resolveApplicableRate
        rw [if_neg hnonempty]
        dsimp only
        rw [hp, hE]
      · intro _
        have hne2 : (measures.filter fun m =>
            decide (¬(m.origin_group = origin) ∧ m.origin_group = "ERGA OMNES")) ≠ [] := by
          intro hnil
          rw [hnil] at hE
          cases hE
        obtain ⟨e', he', hmem⟩ := getLast?_mem_of_ne_nil hne2
        rw [hE] at he'
        injection he' with he'
        subst he'
        have hem := List.mem_filter.mp hmem
        exact ⟨e, hem.1, (of_decide_eq_true hem.2).2, rfl⟩
  · rintro hall ⟨me, hme, hmeo⟩
    have hnonempty : ¬(measures.isEmpty = true) := by
      cases measures with
      | nil => cases hme
      | cons a l => simp
    have hfpnil : (measures.filter fun m => decide (m.origin_group = origin)) = [] := by
      rw [List.filter_eq_nil_iff]
      intro a ha
      simp [hall a ha]
    have hfpnone :
        (measures.filter fun m => decide (m.origin_group = origin)).getLast? = none := by
      rw [hfpnil]
      rfl
    have hEne : (measures.filter fun m =>
        decide (¬(m.origin_group = origin) ∧ m.origin_group = "ERGA OMNES")) ≠ [] := by
      rw [Ne, List.filter_eq_nil_iff]
      push_neg
      refine ⟨me, hme, ?_⟩
      simp only [decide_eq_true_eq]
      exact ⟨fun hc => horigin (hc.symm.trans hmeo), hmeo⟩
    obtain ⟨e, hegl, hemem⟩ := getLast?_mem_of_ne_nil hEne
    have hem := List.mem_filter.mp hemem
    refine ⟨{ preference_possible := some false
              chosen_measure_origin := some "ERGA OMNES"
              chosen_duty_rate_percent := extractDutyRate e.duty_components },
      ?_, rfl, ⟨e, hem.1, (of_decide_eq_true hem.2).2, rfl⟩⟩
    unfold resolveApplicableRate
    rw [if_neg hnonempty]
    dsimp only
    rw [hfpnone, hegl]

/-- The spec's universal-group sample measure: 12.0% ad valorem for
`ERGA OMNES`. -/
def ergaMeasure : ImportMeasure :=
  { goods_code := "61102000"
    origin_group := "ERGA OMNES"
    measure_type := "103"
    duty_components := [{ type := DutyType.ad_valorem, value := 12, unit := DutyUnit.percent }]
    applicability := { valid_from := "2023-01-01" }
    legal_base := sampleBase }

/-- The spec's preferential sample measure: 8.5% ad valorem for `PK`. -/
def pkMeasure : ImportMeasure :=
  { goods_code := "61102000"
    origin_group := "PK"
    measure_type := "142"
    duty_components := [{ type := DutyType.ad_valorem, value := 8.5, unit := DutyUnit.percent }]
    applicability := { valid_from := "2023-01-01" }
    legal_base := sampleBase }

/-- C6 witness: the spec's example — measures `{ERGA OMNES: 12.0%}` and
`{PK: 8.5%}` with origin `PK` resolve to the preferential 8.5% with
`preference_possible = true` and fallback 12.0%. -/
theorem applicable_rate_resolution_prefers_origin_witness :
    resolveApplicableRate [ergaMeasure, pkMeasure] "PK" =
      some { preference_possible := some true
             required_proof := none
             chosen_measure_origin := some "PK"
             chosen_duty_rate_percent := some 8.5
             fallback_if_no_proof_percent := some 12 } ∧
    (∃ r, resolveApplicableRate [ergaMeasure, pkMeasure] "PK" = some r ∧
      r.preference_possible = some true ∧
      (∃ m ∈ [ergaMeasure, pkMeasure], m.origin_group = "PK" ∧
        r.chosen_duty_rate_percent = extractDutyRate m.duty_components) ∧
      ((∃ m ∈ [ergaMeasure, pkMeasure], m.origin_group = "ERGA OMNES") →
        ∃ m ∈ [ergaMeasure, pkMeasure], m.origin_group = "ERGA OMNES" ∧
          r.fallback_if_no_proof_percent = extractDutyRate m.duty_components)) := by
  constructor
  · rfl
  · exact (applicable_rate_resolution_prefers_origin [ergaMeasure, pkMeasure] "PK"
      (by decide)).1
      ⟨pkMeasure, List.mem_cons_of_mem _ (List.mem_cons_self _ _), rfl⟩

end Tarco

namespace Tarco

/-- Every option emitted by `candidates_info` came from position `i < 3`
of the candidate list, carries that candidate's truthy code and the
single-letter id `chr(ord('a') + i)`. -/
lemma mem_candidatesInfo {tcs : List RankedCandidate} {opt : ClarifyingOption}
    (h : opt ∈ candidatesInfo tcs) :
    ∃ i cand, tcs.get? i = some cand ∧ i < 3 ∧ i < tcs.length ∧
      truthyCode cand.metadata.goods_code = some opt.hs_code ∧
      opt.id = String.singleton (Char.ofNat (97 + i)) := by
  unfold candidatesInfo at h
  rw [List.mem_filterMap] at h
  obtain ⟨⟨i, cand⟩, hmem, hf⟩ := h
  rw [List.mem_enum_iff_getElem?] at hmem
  have hi3 : i < 3 := by
    have hlt := (List.getElem?_eq_some.mp hmem).1
    have hlen : (tcs.take 3).length ≤ 3 := by
      simp [List.length_take]
    omega
  have hget : tcs[i]? = some cand := by
    rw [List.getElem?_take, if_pos hi3] at hmem
    exact hmem
  have hilen : i < tcs.length := (List.getElem?_eq_some.mp hget).1
  rcases ht : truthyCode cand.metadata.goods_code with _ | code
  · rw [ht] at hf
    exact Option.noConfusion hf
  · simp only [ht] at hf
    injection hf with hf
    subst hf
    refine ⟨i, cand, ?_, hi3, hilen, ht, rfl⟩
    rw [List.get?_eq_getElem?]
    exact hget

/-- C10: every option of a question emitted by `get_clarifying_question`
round-trips: feeding its single-letter id with the same candidate list to
`classify_with_clarification` yields a non-abstained result whose code is
the option's code, with confidence 1 and `clarification_used = true`;
this holds although the id is taken from the candidate's position in the
top-3 slice, so emitted ids may skip letters when an earlier candidate
lacks a resolvable code (`src/rag/pipeline.py` lines 136-151 and
178-186). -/
theorem clarification_option_round_trip (pyHash : String → Nat)
    (query : String) (tcs : List RankedCandidate)
    (cq : ClarifyingQuestion) (opt : ClarifyingOption)
    (hq : getClarifyingQuestion pyHash query tcs = some cq)
    (ho : opt ∈ cq.options) :
    (classifyWithClarification opt.id tcs).abstained = false ∧
    (classifyWithClarification opt.id tcs).hs_code = some opt.hs_code ∧
    (classifyWithClarification opt.id tcs).confidence = 1 ∧
    (classifyWithClarification opt.id tcs).clarification_used = true := by
  have hopts : opt ∈ candidatesInfo tcs := by
    unfold getClarifyingQuestion at hq
    split_ifs at hq with h1
    dsimp only at hq
    split_ifs at hq with h2
    injection hq with hq
    rw [← hq] at ho
    exact ho
  obtain ⟨i, cand, hget, hi3, hilen, ht, hid⟩ := mem_candidatesInfo hopts
  have hch : ((Char.ofNat (97 + i)).toLower.toNat : Int) - 97 = (i : Int) := by
    interval_cases i <;> decide
  have hcond : ¬(((i : Int) < 0) ∨ ((tcs.length : Int) ≤ (i : Int))) := by
    push_neg
    exact ⟨Int.ofNat_nonneg i, by exact_mod_cast hilen⟩
  have hdata : (String.singleton (Char.ofNat (97 + i))).data =
      [Char.ofNat (97 + i)] := rfl
  rw [hid]
  simp only [classifyWithClarification, hdata, hch, if_neg hcond,
    Int.toNat_ofNat, hget, ht]
  exact ⟨trivial, trivial, trivial, trivial⟩

end Tarco

namespace Tarco

/-- C10 witness: with a code-less top candidate, the emitted option ids
are `b` and `c` (skipping `a`), and feeding `b` back returns the second
candidate's code, non-abstained, with confidence 1. -/
theorem clarification_option_round_trip_witness :
    (getClarifyingQuestion (fun _ => 0) "cotton hoodie"
        [codelessCand, hoodieCand, pulloverCand]) =
      some { id := "cq_0"
             question := "Which of the following best describes your product?"
             options :=
               [{ id := "b", hs_code := "61102000", description := "cotton hoodie", score := 2 },
                { id := "c", hs_code := "61103000", description := "man-made fibre pullover", score := 1 }] } ∧
    (classifyWithClarification "b" [codelessCand, hoodieCand, pulloverCand]).abstained = false ∧
    (classifyWithClarification "b" [codelessCand, hoodieCand, pulloverCand]).hs_code =
      some "61102000" ∧
    (classifyWithClarification "b" [codelessCand, hoodieCand, pulloverCand]).confidence = 1 ∧
    (classifyWithClarification "b" [codelessCand, hoodieCand, pulloverCand]).clarification_used = true := by
  have h := clarification_option_round_trip (fun _ => 0) "cotton hoodie"
    [codelessCand, hoodieCand, pulloverCand]
    { id := "cq_0"
      question := "Which of the following best describes your product?"
      options :=
        [{ id := "b", hs_code := "61102000", description := "cotton hoodie", score := 2 },
         { id := "c", hs_code := "61103000", description := "man-made fibre pullover", score := 1 }] }
    { id := "b", hs_code := "61102000", description := "cotton hoodie", score := 2 }
    rfl (List.mem_cons_self _ _)
  exact ⟨rfl, h.1, h.2.1, h.2.2.1, h.2.2.2⟩

end Tarco
